import Mathlib

/-!
Verification of the `nuchat` full-duplex audio loopback core.

The repository contains four platform variants (ALSA, macOS VoiceProcessingIO,
iOS, Android/Oboe) sharing one data structure, `FloatFIFO`: a power-of-two
single-producer/single-consumer ring buffer of 32-bit float frames, with two
`std::atomic<uint32_t>` indices `w` and `r` and a bit mask `mask = size - 1`.
This file gives a shallow embedding of that structure and of the lifecycle
entry points (`StopVoiceLoopback` on iOS, `FullDuplex::stop` on Android) and
proves or refutes the specification's claims about them.

The embedding is parametric in the sample type `α` (the code never inspects
sample values, only copies them; `memset(..., 0, ...)` on IEEE-754 floats
writes the zero sample, modelled as `(0 : α)` via a `Zero` instance).
All index arithmetic is `uint32_t` arithmetic, modelled as `Nat` operations
reduced modulo `2 ^ 32`.
-/

namespace NuChat

/-- The modulus of `uint32_t` arithmetic, `2 ^ 32`. -/
def U32 : Nat := 4294967296

/-- Truncation of a natural number to `uint32_t`. -/
def u32 (x : Nat) : Nat := x % U32

/-- `uint32_t` wraparound subtraction `a - b`. -/
def usub (a b : Nat) : Nat := (u32 a + U32 - u32 b) % U32

/-- State of `FloatFIFO` (identical in all four platform files):
`std::vector<float> buf; std::atomic<uint32_t> w{0}, r{0}; uint32_t mask;`. -/
structure FloatFIFO (α : Type) where
  buf : List α
  w : Nat
  r : Nat
  mask : Nat
deriving DecidableEq

/-- The constructor's sizing loop `uint32_t p = 1; while (p < sz) p <<= 1;`,
with the `uint32_t` wrap of `p <<= 1` made explicit; the fuel argument is
enough for every terminating run of the C loop. -/
def pow2geAux : Nat → Nat → Nat → Nat
  | 0, p, _ => p
  | fuel + 1, p, sz => if p < sz then pow2geAux fuel (u32 (p * 2)) sz else p

/-- Result of the constructor's sizing loop started at `p = 1`. -/
def pow2ge (sz : Nat) : Nat := pow2geAux sz 1 sz

/-- The constructor `FloatFIFO(uint32_t sz)`: rounds the requested size up to
a power of two `p`, resizes `buf` to `p` value-initialized (zero) samples, and
sets `mask = p - 1`; both indices start at 0. -/
def FloatFIFO.init (α : Type) [Zero α] (sz : Nat) : FloatFIFO α :=
  let p := pow2ge sz
  { buf := List.replicate p 0, w := 0, r := 0, mask := p - 1 }

/-- The copy loop of `push`: `for (i = 0; i < n; ++i) buf[(wi + i) & mask] = src[i];`,
unrolled from the last iteration so later iterations overwrite earlier ones. -/
def writeLoop (src : Nat → α) (wi mask : Nat) : Nat → List α → List α
  | 0, buf => buf
  | k + 1, buf => (writeLoop src wi mask k buf).set (u32 (wi + k) &&& mask) (src k)

/-- `uint32_t push(const float* src, uint32_t n)` of the macOS variant
(`part_001` lines 32-41); the ALSA, iOS and Android variants are the same
computation minus the return value:

```
uint32_t wi = w.load(); uint32_t ri = r.load();
uint32_t freeFrames = ((mask + 1) - (wi - ri)) & mask;
if (n > freeFrames) n = freeFrames;
for (uint32_t i = 0; i < n; ++i) buf[(wi + i) & mask] = src[i];
w.store((wi + n) & mask);
return n;
```

The source pointer is modelled as a function from offsets to samples. -/
def FloatFIFO.push (f : FloatFIFO α) (src : Nat → α) (n0 : Nat) : FloatFIFO α × Nat :=
  let n := u32 n0
  let wi := f.w
  let ri := f.r
  let freeFrames := usub (f.mask + 1) (usub wi ri) &&& f.mask
  let n := if n > freeFrames then freeFrames else n
  ({ f with buf := writeLoop src wi f.mask n f.buf, w := u32 (wi + n) &&& f.mask }, n)

/-- `uint32_t pop(float* dst, uint32_t n)` of the macOS variant
(`part_001` lines 42-54); the ALSA, iOS and Android variants write
`n < avail ? n : avail`, the same minimum:

```
uint32_t wi = w.load(); uint32_t ri = r.load();
uint32_t avail = (wi - ri) & mask;
uint32_t got = (n <= avail) ? n : avail;
for (uint32_t i = 0; i < got; ++i) dst[i] = buf[(ri + i) & mask];
r.store((ri + got) & mask);
if (got < n) memset(dst + got, 0, (n - got) * sizeof(float));
return got;
```

The destination buffer's `n` written slots are returned as a list: the copy
loop fills the first `got` slots from the ring, the `memset` zero-fills the
remaining `n - got`. -/
def FloatFIFO.pop [Zero α] (f : FloatFIFO α) (n0 : Nat) : FloatFIFO α × List α × Nat :=
  let n := u32 n0
  let wi := f.w
  let ri := f.r
  let avail := usub wi ri &&& f.mask
  let got := if n ≤ avail then n else avail
  let dst := (List.range got).map (fun i => f.buf.getD (u32 (ri + i) &&& f.mask) 0)
      ++ List.replicate (n - got) 0
  ({ f with r := u32 (ri + got) &&& f.mask }, dst, got)

/-- One client call to the FIFO: a producer `push` of `n` frames from a source,
or a consumer `pop` of `n` frames. -/
inductive Op (α : Type) where
  | push (src : Nat → α) (n : Nat)
  | pop (n : Nat)

/-- State transition of a single call (outputs discarded). -/
def step [Zero α] (f : FloatFIFO α) : Op α → FloatFIFO α
  | .push src n => (f.push src n).1
  | .pop n => (f.pop n).1

def run [Zero α] (f : FloatFIFO α) : List (Op α) → FloatFIFO α
  | [] => f
  | op :: ops => run (step f op) ops

/-- History of an interleaving: the FIFO state, the concatenation of the frames
each `push` accepted (its clamped prefix of the source), and the concatenation
of the real (ring-copied, non-padding) frames each `pop` returned. -/
structure Trace (α : Type) where
  fifo : FloatFIFO α
  accepted : List α
  popped : List α

def stepT [Zero α] (t : Trace α) : Op α → Trace α
  | .push src n =>
      let p := t.fifo.push src n
      { fifo := p.1, accepted := t.accepted ++ (List.range p.2).map src, popped := t.popped }
  | .pop n =>
      let p := t.fifo.pop n
      { fifo := p.1, accepted := t.accepted, popped := t.popped ++ p.2.1.take p.2.2 }

def runT [Zero α] (t : Trace α) : List (Op α) → Trace α
  | [] => t
  | op :: ops => runT (stepT t op) ops

/-- The trace of a freshly constructed FIFO: no frames accepted, none popped. -/
def initTrace (α : Type) [Zero α] (sz : Nat) : Trace α :=
  { fifo := FloatFIFO.init α sz, accepted := [], popped := [] }

/-- External calls issued by the iOS teardown path. -/
inductive AUCall where
  | outputUnitStop
  | uninit
  | dispose
deriving DecidableEq

/-- The iOS global relevant to lifecycle: `static AudioUnit gAudioUnit` is
either null or a live handle (the handle itself is opaque). -/
structure IOSLoopback where
  gAudioUnit : Option Unit
deriving DecidableEq

/-- `void StopVoiceLoopback()` (ios_voice_loopback.mm lines 137-145): when the
handle is non-null it is stopped, uninitialized, disposed and nulled out;
otherwise nothing happens. Returns the new global state together with the
external calls performed. -/
def StopVoiceLoopback (s : IOSLoopback) : IOSLoopback × List AUCall :=
  match s.gAudioUnit with
  | some _ => (⟨none⟩, [.outputUnitStop, .uninit, .dispose])
  | none => (s, [])

/-- The iOS session is stopped when no live audio unit remains. -/
def IOSLoopback.stoppedState (s : IOSLoopback) : Bool := s.gAudioUnit.isNone

/-- Lifecycle state of one oboe `AudioStream`. -/
inductive StreamState where
  | started
  | stopped
deriving DecidableEq

/-- Modelled from the spec: `AudioStream::requestStop` belongs to the external
PlatformAudioPort (the oboe library), which §1 assumes correct; it moves the
stream to its stopped state and is harmless on an already stopped stream. -/
def requestStop : StreamState → StreamState := fun _ => .stopped

/-- `class FullDuplex` state: the two optional shared-pointer streams
(android_voice_loopback.cpp line 48). -/
structure FullDuplex where
  inputStream : Option StreamState
  outputStream : Option StreamState
deriving DecidableEq

/-- `void FullDuplex::stop()` (android_voice_loopback.cpp lines 86-89):
`if (inputStream) inputStream->requestStop();` and likewise for the output
stream. -/
def FullDuplex.stop (d : FullDuplex) : FullDuplex :=
  { inputStream := d.inputStream.map requestStop,
    outputStream := d.outputStream.map requestStop }

/-- The Android session is stopped when every open stream is stopped. -/
def FullDuplex.stoppedState (d : FullDuplex) : Bool :=
  d.inputStream.all (· == .stopped) && d.outputStream.all (· == .stopped)

example : pow2ge 8 = 8 := by decide
example : pow2ge 5 = 8 := by decide
example : (FloatFIFO.init Int 4).mask = 3 := by decide
example : ((FloatFIFO.init Int 4).push (fun i => (i : Int) + 1) 3).2 = 0 := by decide
example : ((FloatFIFO.init Int 8).pop 5).2.1 = [0, 0, 0, 0, 0] := by decide

theorem u32_lt (x : Nat) : u32 x < U32 :=
  Nat.mod_lt _ (by decide)

theorem usub_self (a : Nat) : usub a a = 0 := by
  unfold usub
  rw [Nat.add_sub_cancel_left, Nat.mod_self]

theorem usub_zero (a : Nat) : usub a 0 = u32 a := by
  unfold usub
  rw [show u32 0 = 0 from rfl, Nat.sub_zero, Nat.add_mod_right]
  exact Nat.mod_eq_of_lt (u32_lt a)

/-- The `uint32_t` value `2 ^ k` masked by `2 ^ k - 1` is zero, also at the
wrap point `k = 32`. -/
theorem u32_two_pow_and_mask (k : Nat) (hk : k ≤ 32) :
    u32 (2 ^ k) &&& (2 ^ k - 1) = 0 := by
  rw [Nat.and_pow_two_sub_one_eq_mod, u32, show (U32 : Nat) = 2 ^ 32 from by decide,
    Nat.mod_mod_of_dvd _ (Nat.pow_dvd_pow 2 hk), Nat.mod_self]

/-- When the two stored indices are equal, the free-space computation of `push`
yields zero, `push` copies nothing, and the write index is re-stored masked. -/
theorem push_of_w_eq_r {α : Type} (f : FloatFIFO α) (src : Nat → α) (n k : Nat)
    (hmask : f.mask = 2 ^ k - 1) (hk : k ≤ 32) (heq : f.w = f.r) :
    f.push src n = ({ f with w := u32 f.w &&& f.mask }, 0) := by
  have h1 : usub f.w f.r = 0 := by rw [heq, usub_self]
  have h2 : usub (f.mask + 1) (usub f.w f.r) &&& f.mask = 0 := by
    rw [h1, usub_zero, hmask, Nat.sub_add_cancel (Nat.two_pow_pos k)]
    exact u32_two_pow_and_mask k hk
  simp only [FloatFIFO.push, h2]
  rw [show (if u32 n > 0 then 0 else u32 n) = 0 from by split <;> omega]
  simp [writeLoop]

/-- When the two stored indices are equal, `pop` finds nothing available:
it copies nothing, zero-fills the whole destination, and returns 0. -/
theorem pop_of_w_eq_r {α : Type} [Zero α] (f : FloatFIFO α) (n : Nat) (heq : f.w = f.r) :
    f.pop n = ({ f with r := u32 f.r &&& f.mask }, List.replicate (u32 n) 0, 0) := by
  have h1 : usub f.w f.r = 0 := by rw [heq, usub_self]
  simp only [FloatFIFO.pop, h1, Nat.zero_and]
  rw [show (if u32 n ≤ 0 then u32 n else 0) = 0 from by split <;> omega]
  simp

/-- On a freshly constructed FIFO `push` accepts nothing and leaves the state
untouched. -/
theorem push_init_eq {α : Type} [Zero α] (sz k : Nat) (h1 : pow2ge sz = 2 ^ k)
    (hk : k ≤ 32) (src : Nat → α) (n : Nat) :
    (FloatFIFO.init α sz).push src n = (FloatFIFO.init α sz, 0) := by
  have hm : (FloatFIFO.init α sz).mask = 2 ^ k - 1 := by
    show pow2ge sz - 1 = 2 ^ k - 1
    rw [h1]
  rw [push_of_w_eq_r (FloatFIFO.init α sz) src n k hm hk rfl]
  rw [show u32 (FloatFIFO.init α sz).w &&& (FloatFIFO.init α sz).mask
      = (FloatFIFO.init α sz).w from by
    show u32 0 &&& (FloatFIFO.init α sz).mask = 0
    rw [show u32 0 = 0 from rfl, Nat.zero_and]]

/-- On a freshly constructed FIFO `pop` returns pure silence, reports 0 frames
read, and leaves the state untouched. -/
theorem pop_init_eq {α : Type} [Zero α] (sz n : Nat) :
    (FloatFIFO.init α sz).pop n = (FloatFIFO.init α sz, List.replicate (u32 n) 0, 0) := by
  rw [pop_of_w_eq_r (FloatFIFO.init α sz) n rfl]
  rw [show u32 (FloatFIFO.init α sz).r &&& (FloatFIFO.init α sz).mask
      = (FloatFIFO.init α sz).r from by
    show u32 0 &&& (FloatFIFO.init α sz).mask = 0
    rw [show u32 0 = 0 from rfl, Nat.zero_and]]

/-- A single traced call on the fresh state changes nothing: no frames are
accepted, no real frames are popped. -/
theorem stepT_init_eq {α : Type} [Zero α] (sz k : Nat) (h1 : pow2ge sz = 2 ^ k)
    (hk : k ≤ 32) (acc pp : List α) (op : Op α) :
    stepT ⟨FloatFIFO.init α sz, acc, pp⟩ op = ⟨FloatFIFO.init α sz, acc, pp⟩ := by
  cases op with
  | push src n => simp [stepT, push_init_eq sz k h1 hk src n]
  | pop n => simp [stepT, pop_init_eq sz n]

/-- Every interleaving of calls leaves the fresh trace unchanged. -/
theorem runT_init_eq {α : Type} [Zero α] (sz k : Nat) (h1 : pow2ge sz = 2 ^ k)
    (hk : k ≤ 32) (ops : List (Op α)) :
    runT (initTrace α sz) ops = initTrace α sz := by
  induction ops with
  | nil => rfl
  | cons op ops ih =>
      have hstep : stepT (initTrace α sz) op = initTrace α sz :=
        stepT_init_eq sz k h1 hk [] [] op
      show runT (stepT (initTrace α sz) op) ops = initTrace α sz
      rw [hstep]
      exact ih

/-- Every interleaving of calls leaves the fresh FIFO state unchanged. -/
theorem run_init_eq {α : Type} [Zero α] (sz k : Nat) (h1 : pow2ge sz = 2 ^ k)
    (hk : k ≤ 32) (ops : List (Op α)) :
    run (FloatFIFO.init α sz) ops = FloatFIFO.init α sz := by
  induction ops with
  | nil => rfl
  | cons op ops ih =>
      have hstep : step (FloatFIFO.init α sz) op = FloatFIFO.init α sz := by
        cases op with
        | push src n =>
            show ((FloatFIFO.init α sz).push src n).1 = FloatFIFO.init α sz
            rw [push_init_eq sz k h1 hk]
        | pop n =>
            show ((FloatFIFO.init α sz).pop n).1 = FloatFIFO.init α sz
            rw [pop_init_eq]
      show run (step (FloatFIFO.init α sz) op) ops = FloatFIFO.init α sz
      rw [hstep]
      exact ih

/-- Slots the copy loop of `push` does not touch keep their contents. -/
theorem writeLoop_getElem?_untouched {α : Type} (src : Nat → α) (wi mask j : Nat) :
    ∀ (m : Nat) (buf : List α), (∀ i, i < m → j ≠ u32 (wi + i) &&& mask) →
      (writeLoop src wi mask m buf)[j]? = buf[j]? := by
  intro m
  induction m with
  | zero => intro buf _; rfl
  | succ k ih =>
      intro buf h
      show ((writeLoop src wi mask k buf).set (u32 (wi + k) &&& mask) (src k))[j]? = buf[j]?
      rw [List.getElem?_set_ne (fun hj => h k (Nat.lt_succ_self k) hj.symm)]
      exact ih buf (fun i hi => h i (Nat.lt_succ_of_lt hi))

/-- C1: the claim states that `push` computes free space as
`N - (writeIdx - readIdx)`, which on a fresh capacity-4 buffer is 4, so a push
of 3 frames would copy 3 frames and return 3. The implementation instead
computes `((mask + 1) - (wi - ri)) & mask`, which on the fresh buffer is
`4 & 3 = 0`: the push copies nothing, returns 0, and leaves the buffer
untouched. -/
theorem C1_push_clamps_to_masked_free_space :
    ((FloatFIFO.init Int 4).push (fun i => (i : Int) + 1) 3).2 = 0 ∧
      ((FloatFIFO.init Int 4).push (fun i => (i : Int) + 1) 3).1 = FloatFIFO.init Int 4 := by
  decide

/-- C2: the round-trip test of the spec fails on the code: on a fresh
capacity-8 buffer, pushing the 5 distinct values 10..50 accepts 0 of them, and
the subsequent pop of 5 returns 5 zero samples with 0 frames read, not the
5 pushed values. -/
theorem C2_roundtrip_returns_silence :
    ((FloatFIFO.init Int 8).push (fun i => [10, 20, 30, 40, 50].getD i 0) 5).2 = 0 ∧
      (((FloatFIFO.init Int 8).push (fun i => [10, 20, 30, 40, 50].getD i 0) 5).1.pop 5).2.1
        = [0, 0, 0, 0, 0] ∧
      (((FloatFIFO.init Int 8).push (fun i => [10, 20, 30, 40, 50].getD i 0) 5).1.pop 5).2.2
        = 0 := by
  decide

/-- C3: the overflow-clipping test of the spec fails on the code: on a fresh
capacity-4 buffer the first push of 3 frames returns 0 (the claim says 3), the
second push of 3 frames also returns 0 (the claim says 1), and afterwards the
buffer holds 0 readable frames (the claim says it is full). -/
theorem C3_overflow_test_fails_at_first_push :
    ((FloatFIFO.init Int 4).push (fun i => (i : Int) + 10) 3).2 = 0 ∧
      ((((FloatFIFO.init Int 4).push (fun i => (i : Int) + 10) 3).1.push
          (fun i => (i : Int) + 20) 3).2 = 0) ∧
      usub ((((FloatFIFO.init Int 4).push (fun i => (i : Int) + 10) 3).1.push
              (fun i => (i : Int) + 20) 3).1.w)
          ((((FloatFIFO.init Int 4).push (fun i => (i : Int) + 10) 3).1.push
              (fun i => (i : Int) + 20) 3).1.r)
          &&& ((((FloatFIFO.init Int 4).push (fun i => (i : Int) + 10) 3).1.push
              (fun i => (i : Int) + 20) 3).1.mask)
        = 0 := by
  decide

/-- C4: for every buffer state with `a` frames available (as the code computes
availability) and every `pop` request of `n > a` frames, `pop` reports `a`
frames read, fills the destination with the `a` available frames in ring order
followed by `n - a` zero samples, and initializes all `n` destination slots. -/
theorem C4_pop_pads_underrun_with_zeros {α : Type} [Zero α] (f : FloatFIFO α) (n : Nat)
    (h : usub f.w f.r &&& f.mask < u32 n) :
    (f.pop n).2.2 = usub f.w f.r &&& f.mask ∧
      (f.pop n).2.1
        = (List.range (usub f.w f.r &&& f.mask)).map
            (fun i => f.buf.getD (u32 (f.r + i) &&& f.mask) 0)
          ++ List.replicate (u32 n - (usub f.w f.r &&& f.mask)) 0 ∧
      ((f.pop n).2.1).length = u32 n := by
  have hgot : (if u32 n ≤ usub f.w f.r &&& f.mask then u32 n
      else usub f.w f.r &&& f.mask) = usub f.w f.r &&& f.mask := by
    rw [if_neg]
    omega
  simp only [FloatFIFO.pop]
  rw [hgot]
  refine ⟨rfl, rfl, ?_⟩
  simp only [List.length_append, List.length_map, List.length_range, List.length_replicate]
  omega

/-- C4 witness: the state with samples 10,20,30,40 committed (4 available) and
a pop of 10 frames: the destination receives the 4 real values then 6 zeros,
and 4 frames are reported read. -/
theorem C4_pop_pads_underrun_with_zeros_witness :
    usub (4 : Nat) 0 &&& 7 < u32 10 ∧
      ((⟨[10, 20, 30, 40, 0, 0, 0, 0], 4, 0, 7⟩ : FloatFIFO Int).pop 10).2.1
        = [10, 20, 30, 40, 0, 0, 0, 0, 0, 0] ∧
      ((⟨[10, 20, 30, 40, 0, 0, 0, 0], 4, 0, 7⟩ : FloatFIFO Int).pop 10).2.2 = 4 :=
  ⟨by decide,
   ((C4_pop_pads_underrun_with_zeros
      (⟨[10, 20, 30, 40, 0, 0, 0, 0], 4, 0, 7⟩ : FloatFIFO Int) 10 (by decide)).2.1).trans
     (by decide),
   ((C4_pop_pads_underrun_with_zeros
      (⟨[10, 20, 30, 40, 0, 0, 0, 0], 4, 0, 7⟩ : FloatFIFO Int) 10 (by decide)).1).trans
     (by decide)⟩

/-- C5: in every state reachable by any sequence of push and pop calls from a
freshly constructed buffer of power-of-two capacity `2 ^ k`, the wraparound
difference `w - r` lies in `[0, 2 ^ k]` and coincides with the availability
quantity `(w - r) & mask` that the code reads out. -/
theorem C5_index_difference_invariant {α : Type} [Zero α] (sz k : Nat) (ops : List (Op α))
    (h1 : pow2ge sz = 2 ^ k) (hk : k ≤ 32) :
    usub (run (FloatFIFO.init α sz) ops).w (run (FloatFIFO.init α sz) ops).r ≤ 2 ^ k ∧
      usub (run (FloatFIFO.init α sz) ops).w (run (FloatFIFO.init α sz) ops).r
        = usub (run (FloatFIFO.init α sz) ops).w (run (FloatFIFO.init α sz) ops).r
            &&& (run (FloatFIFO.init α sz) ops).mask := by
  rw [run_init_eq sz k h1 hk ops]
  constructor
  · show usub 0 0 ≤ 2 ^ k
    rw [usub_self]
    exact Nat.zero_le _
  · show usub 0 0 = usub 0 0 &&& (FloatFIFO.init α sz).mask
    rw [usub_self, Nat.zero_and]

/-- C5 witness at capacity 8 with a pop of 2 then a push of 3. -/
theorem C5_index_difference_invariant_witness :
    pow2ge 8 = 2 ^ 3 ∧ (3 : Nat) ≤ 32 ∧
      (usub (run (FloatFIFO.init Int 8) [Op.pop 2, Op.push (fun _ => (7 : Int)) 3]).w
          (run (FloatFIFO.init Int 8) [Op.pop 2, Op.push (fun _ => (7 : Int)) 3]).r ≤ 2 ^ 3 ∧
        usub (run (FloatFIFO.init Int 8) [Op.pop 2, Op.push (fun _ => (7 : Int)) 3]).w
            (run (FloatFIFO.init Int 8) [Op.pop 2, Op.push (fun _ => (7 : Int)) 3]).r
          = usub (run (FloatFIFO.init Int 8) [Op.pop 2, Op.push (fun _ => (7 : Int)) 3]).w
              (run (FloatFIFO.init Int 8) [Op.pop 2, Op.push (fun _ => (7 : Int)) 3]).r
              &&& (run (FloatFIFO.init Int 8) [Op.pop 2, Op.push (fun _ => (7 : Int)) 3]).mask) :=
  ⟨by decide, by decide,
   C5_index_difference_invariant 8 3 [Op.pop 2, Op.push (fun _ => (7 : Int)) 3]
     (by decide) (by decide)⟩

/-- C6: over any single-producer/single-consumer sequence of calls from a
fresh buffer, the concatenation of the real (ring-copied, non-silence) frames
returned by the pops is a prefix, in order, of the concatenation of the frames
accepted by the pushes. -/
theorem C6_popped_frames_form_accepted_prefix {α : Type} [Zero α] (sz k : Nat)
    (ops : List (Op α)) (h1 : pow2ge sz = 2 ^ k) (hk : k ≤ 32) :
    (runT (initTrace α sz) ops).popped <+: (runT (initTrace α sz) ops).accepted := by
  rw [runT_init_eq sz k h1 hk ops]
  exact ⟨[], rfl⟩

/-- C6 witness at capacity 8 with a push of 2 then a pop of 1. -/
theorem C6_popped_frames_form_accepted_prefix_witness :
    pow2ge 8 = 2 ^ 3 ∧ (3 : Nat) ≤ 32 ∧
      (runT (initTrace Int 8) [Op.push (fun _ => (1 : Int)) 2, Op.pop 1]).popped
        <+: (runT (initTrace Int 8) [Op.push (fun _ => (1 : Int)) 2, Op.pop 1]).accepted :=
  ⟨by decide, by decide,
   C6_popped_frames_form_accepted_prefix 8 3 [Op.push (fun _ => (1 : Int)) 2, Op.pop 1]
     (by decide) (by decide)⟩

/-- C7: over any interleaving of calls from a fresh power-of-two buffer, the
total number of real frames returned by the pops equals the total number of
frames accepted by the pushes minus the unread remainder still available in
the buffer at the point of inspection. -/
theorem C7_accepted_popped_conservation {α : Type} [Zero α] (sz k : Nat)
    (ops : List (Op α)) (h1 : pow2ge sz = 2 ^ k) (hk : k ≤ 32) :
    (runT (initTrace α sz) ops).popped.length
      = (runT (initTrace α sz) ops).accepted.length
        - (usub (runT (initTrace α sz) ops).fifo.w (runT (initTrace α sz) ops).fifo.r
            &&& (runT (initTrace α sz) ops).fifo.mask) := by
  rw [runT_init_eq sz k h1 hk ops]
  show (0 : Nat) = 0 - (usub 0 0 &&& (FloatFIFO.init α sz).mask)
  rw [Nat.zero_sub]

/-- C7 witness at capacity 8 with a push of 4 then a pop of 2. -/
theorem C7_accepted_popped_conservation_witness :
    pow2ge 8 = 2 ^ 3 ∧ (3 : Nat) ≤ 32 ∧
      (runT (initTrace Int 8) [Op.push (fun _ => (2 : Int)) 4, Op.pop 2]).popped.length
        = (runT (initTrace Int 8) [Op.push (fun _ => (2 : Int)) 4, Op.pop 2]).accepted.length
          - (usub (runT (initTrace Int 8) [Op.push (fun _ => (2 : Int)) 4, Op.pop 2]).fifo.w
                (runT (initTrace Int 8) [Op.push (fun _ => (2 : Int)) 4, Op.pop 2]).fifo.r
              &&& (runT (initTrace Int 8) [Op.push (fun _ => (2 : Int)) 4, Op.pop 2]).fifo.mask) :=
  ⟨by decide, by decide,
   C7_accepted_popped_conservation 8 3 [Op.push (fun _ => (2 : Int)) 4, Op.pop 2]
     (by decide) (by decide)⟩

/-- C8: `stop` called twice in sequence produces no error and is idempotent on
both platforms: on iOS, after the first `StopVoiceLoopback` the audio unit is
null (session stopped), and the second call performs no external calls and
leaves the state unchanged; on Android, `FullDuplex::stop` leaves every open
stream stopped after each of the two calls and the second call does not change
the state. -/
theorem C8_stop_twice_is_noop :
    (∀ s : IOSLoopback,
        (StopVoiceLoopback s).1.stoppedState = true ∧
        (StopVoiceLoopback (StopVoiceLoopback s).1).1.stoppedState = true ∧
        StopVoiceLoopback (StopVoiceLoopback s).1 = ((StopVoiceLoopback s).1, [])) ∧
      ∀ d : FullDuplex,
        d.stop.stoppedState = true ∧
        d.stop.stop.stoppedState = true ∧
        d.stop.stop = d.stop := by
  constructor
  · intro s
    rcases s with ⟨_ | _⟩ <;> simp [StopVoiceLoopback, IOSLoopback.stoppedState]
  · intro d
    rcases d with ⟨i, o⟩
    rcases i with _ | s₁ <;> rcases o with _ | s₂ <;>
      simp [FullDuplex.stop, FullDuplex.stoppedState, requestStop]

/-- C9: whenever the two stored indices are equal, in particular on every
freshly constructed FIFO, the free-space computation of `push` yields 0, so
`push` writes zero frames into the ring and returns 0, for every source and
every requested count. -/
theorem C9_push_rejects_all_frames_when_indices_equal {α : Type} (f : FloatFIFO α)
    (src : Nat → α) (n k : Nat) (hmask : f.mask = 2 ^ k - 1) (hk : k ≤ 32)
    (heq : f.w = f.r) :
    usub (f.mask + 1) (usub f.w f.r) &&& f.mask = 0 ∧
      (f.push src n).2 = 0 ∧
      (f.push src n).1.buf = f.buf := by
  have h := push_of_w_eq_r f src n k hmask hk heq
  refine ⟨?_, by rw [h], by rw [h]⟩
  rw [heq, usub_self, usub_zero, hmask, Nat.sub_add_cancel (Nat.two_pow_pos k)]
  exact u32_two_pow_and_mask k hk

/-- C9 witness on the freshly constructed capacity-4 FIFO with a push of 6
frames of value 9. -/
theorem C9_push_rejects_all_frames_when_indices_equal_witness :
    (FloatFIFO.init Int 4).mask = 2 ^ 2 - 1 ∧
      (FloatFIFO.init Int 4).w = (FloatFIFO.init Int 4).r ∧
      (usub ((FloatFIFO.init Int 4).mask + 1)
            (usub (FloatFIFO.init Int 4).w (FloatFIFO.init Int 4).r)
          &&& (FloatFIFO.init Int 4).mask = 0 ∧
        ((FloatFIFO.init Int 4).push (fun _ => (9 : Int)) 6).2 = 0 ∧
        ((FloatFIFO.init Int 4).push (fun _ => (9 : Int)) 6).1.buf
          = (FloatFIFO.init Int 4).buf) :=
  ⟨by decide, by decide,
   C9_push_rejects_all_frames_when_indices_equal (FloatFIFO.init Int 4) (fun _ => (9 : Int)) 6 2
     (by decide) (by decide) (by decide)⟩

/-- C10: `push` never writes the read index, the mask, or any ring slot
outside the window it copies into; `pop` never writes the write index, the
mask, or any ring storage at all. -/
theorem C10_push_pop_frame_conditions {α : Type} [Zero α] :
    (∀ (f : FloatFIFO α) (src : Nat → α) (n : Nat),
        (f.push src n).1.r = f.r ∧
        (f.push src n).1.mask = f.mask ∧
        ∀ j : Nat, (∀ i, i < (f.push src n).2 → j ≠ u32 (f.w + i) &&& f.mask) →
          (f.push src n).1.buf[j]? = f.buf[j]?) ∧
      ∀ (f : FloatFIFO α) (n : Nat),
        (f.pop n).1.w = f.w ∧ (f.pop n).1.mask = f.mask ∧ (f.pop n).1.buf = f.buf := by
  constructor
  · intro f src n
    refine ⟨rfl, rfl, fun j hj => ?_⟩
    exact writeLoop_getElem?_untouched src f.w f.mask j ((f.push src n).2) f.buf hj
  · intro f n
    exact ⟨rfl, rfl, rfl⟩

/-- C10 witness: a push on the fresh capacity-4 FIFO leaves the read index and
slot 1 untouched, and a pop leaves the storage untouched. -/
theorem C10_push_pop_frame_conditions_witness :
    ((FloatFIFO.init Int 4).push (fun _ => (3 : Int)) 2).1.r = (FloatFIFO.init Int 4).r ∧
      ((FloatFIFO.init Int 4).push (fun _ => (3 : Int)) 2).1.buf[1]?
        = (FloatFIFO.init Int 4).buf[1]? ∧
      ((FloatFIFO.init Int 4).pop 3).1.buf = (FloatFIFO.init Int 4).buf :=
  ⟨((@C10_push_pop_frame_conditions Int _).1 (FloatFIFO.init Int 4) (fun _ => (3 : Int)) 2).1,
   ((@C10_push_pop_frame_conditions Int _).1 (FloatFIFO.init Int 4) (fun _ => (3 : Int)) 2).2.2 1
     (by decide),
   ((@C10_push_pop_frame_conditions Int _).2 (FloatFIFO.init Int 4) 3).2.2⟩

end NuChat
